import Mathlib

/-!
Shallow embedding of `src/server.js`: a minimal Express + Prisma HTTP API
exposing list / create / delete over a single `Post` entity.

Request bodies are parsed by `express.json()`, so payload fields range over
JSON values (plus `undefined` for an absent field).  JSON numbers are modelled
as integers (no claim depends on non-integral numerics).  Each handler is a
total function from its inputs, the current store, and an optional injected
persistence-layer fault to a result record (HTTP status, response body, the
store after the call, and the `console.error` log entries it emitted).
-/

/-- A JSON value as delivered by `express.json()`, extended with `undefined`
for a field absent from the request body (JS destructuring yields
`undefined`). -/
inductive JSValue where
  | undefined
  | null
  | boolean (b : Bool)
  | number (n : Int)
  | str (s : String)
  | arr (elems : List JSValue)
  | obj (fields : List (String × JSValue))

/-- JS truthiness of a JSON value: `undefined`, `null`, `false`, `0` and `""`
are falsy; every array and object is truthy. -/
def truthy : JSValue → Bool
  | .undefined => false
  | .null => false
  | .boolean b => b
  | .number n => n != 0
  | .str s => s != ""
  | .arr _ => true
  | .obj _ => true

/-- JS `v || null` as used at `imageUrl || null` / `userId || null`
(server.js lines 94-95): the value itself when truthy, else `null`. -/
def jsOr (v : JSValue) : JSValue :=
  if truthy v then v else .null

/-- The ECMAScript WhiteSpace / LineTerminator characters recognised by
`String.prototype.trim` and skipped by `parseInt`. -/
def jsWhitespace (c : Char) : Bool :=
  (9 ≤ c.toNat && c.toNat ≤ 13) || c.toNat = 32 || c.toNat = 160 ||
  c.toNat = 0x1680 || (0x2000 ≤ c.toNat && c.toNat ≤ 0x200A) ||
  c.toNat = 0x2028 || c.toNat = 0x2029 || c.toNat = 0x202F ||
  c.toNat = 0x205F || c.toNat = 0x3000 || c.toNat = 0xFEFF

/-- Strip leading and trailing JS whitespace from a character list. -/
def trimChars (l : List Char) : List Char :=
  ((l.dropWhile jsWhitespace).reverse.dropWhile jsWhitespace).reverse

/-- JS `String.prototype.trim`. -/
def jsTrim (s : String) : String :=
  ⟨trimChars s.data⟩

/-- JS method call `v.trim()` on a JSON value: defined only on strings;
`none` models the `TypeError` thrown when `v` is a truthy non-string
(numbers, booleans, plain arrays and plain objects have no `trim`). -/
def tryTrim : JSValue → Option String
  | .str s => some (jsTrim s)
  | _ => none

/-- Decimal digit test, by code point (`'0'` = 48 … `'9'` = 57). -/
def isDecDigitB (c : Char) : Bool :=
  48 ≤ c.toNat && c.toNat ≤ 57

/-- Hexadecimal digit test. -/
def isHexDigitB (c : Char) : Bool :=
  isDecDigitB c || (97 ≤ c.toNat && c.toNat ≤ 102) || (65 ≤ c.toNat && c.toNat ≤ 70)

/-- Numeric value of a decimal digit string (most significant first). -/
def decValue (l : List Char) : Nat :=
  l.foldl (fun a c => a * 10 + (c.toNat - 48)) 0

/-- Numeric value of one hexadecimal digit. -/
def hexDigitVal (c : Char) : Nat :=
  if isDecDigitB c then c.toNat - 48
  else if 97 ≤ c.toNat && c.toNat ≤ 102 then c.toNat - 87
  else c.toNat - 55

/-- Numeric value of a hexadecimal digit string (most significant first). -/
def hexValue (l : List Char) : Nat :=
  l.foldl (fun a c => a * 16 + hexDigitVal c) 0

/-- ECMAScript `parseInt` after whitespace and sign have been consumed:
a `0x` / `0X` prefix switches to radix 16, otherwise radix 10; the longest
prefix of valid digits is taken; no digit at all yields NaN (`none`). -/
def parseIntAfterSign (l : List Char) : Option Nat :=
  if l.head? = some '0' ∧ (l.tail.head? = some 'x' ∨ l.tail.head? = some 'X') then
    if l.tail.tail.takeWhile isHexDigitB = [] then none
    else some (hexValue (l.tail.tail.takeWhile isHexDigitB))
  else
    if l.takeWhile isDecDigitB = [] then none
    else some (decValue (l.takeWhile isDecDigitB))

/-- ECMAScript `parseInt` after leading whitespace has been skipped: an
optional sign, then the radix-and-digits stage. -/
def parseIntSigned (l : List Char) : Option Int :=
  if l.head? = some '-' then (parseIntAfterSign l.tail).map (fun n => -(n : Int))
  else if l.head? = some '+' then (parseIntAfterSign l.tail).map (fun n => (n : Int))
  else (parseIntAfterSign l).map (fun n => (n : Int))

/-- JS `parseInt(string)` with the default radix, as called at
`parseInt(req.params.id)` (server.js line 115): skip leading whitespace,
consume an optional sign, then parse digits; `none` models `NaN`. -/
def parseInt (s : String) : Option Int :=
  parseIntSigned (s.data.dropWhile jsWhitespace)

/-- An error thrown by a Prisma client call: an optional Prisma error code
(`"P2025"` = record not found) and a free-form detail message. -/
structure PrismaError where
  code : Option String
  message : String

/-- The Prisma `P2025` error signalled when `prisma.post.delete` finds no
record matching the unique `where`. -/
def notFoundError : PrismaError :=
  ⟨some "P2025", "An operation failed because it depends on one or more records that were required but not found."⟩

/-- A stored `Post` row.  `imageUrl` / `userId` hold whatever JSON value the
handler passed to `prisma.post.create` (the handler nulls falsy values). -/
structure Post where
  id : Int
  content : String
  imageUrl : JSValue
  userId : JSValue
  createdAt : Nat

/-- The database state: the stored rows, the next auto-increment `id`, and
the current clock used for `createdAt` (both assigned by the persistence
layer, never by the handlers). -/
structure Store where
  posts : List Post
  nextId : Int
  now : Nat

/-- Descending-`createdAt` comparison used by `orderBy: createdAt desc`. -/
def postGe (a b : Post) : Prop :=
  b.createdAt ≤ a.createdAt

instance : DecidableRel postGe :=
  fun a b => Nat.decLe b.createdAt a.createdAt

instance : IsTotal Post postGe :=
  ⟨fun a b => Nat.le_total b.createdAt a.createdAt⟩

instance : IsTrans Post postGe :=
  ⟨fun _ _ _ hab hbc => Nat.le_trans hbc hab⟩

/-- The rows sorted newest first, as the database returns them for
`orderBy: { createdAt: "desc" }`. -/
def sortDesc (l : List Post) : List Post :=
  l.insertionSort postGe

/-- `prisma.post.findMany({ orderBy: { createdAt: "desc" } })`; `fault`
injects an arbitrary persistence failure. -/
def prismaFindMany (s : Store) (fault : Option PrismaError) : Except PrismaError (List Post) :=
  match fault with
  | some e => .error e
  | none => .ok (sortDesc s.posts)

/-- `prisma.post.create({ data: { content, imageUrl, userId } })`: the
persistence layer assigns `id` and `createdAt` and returns the created row. -/
def prismaCreate (s : Store) (content : String) (imageUrl userId : JSValue)
    (fault : Option PrismaError) : Except PrismaError (Post × Store) :=
  match fault with
  | some e => .error e
  | none =>
    let p : Post := ⟨s.nextId, content, imageUrl, userId, s.now⟩
    .ok (p, { s with posts := p :: s.posts, nextId := s.nextId + 1 })

/-- `prisma.post.delete({ where: { id } })`: removes the row with the given
unique `id`, or throws `P2025` when no such row exists. -/
def prismaDelete (s : Store) (n : Int) (fault : Option PrismaError) : Except PrismaError Store :=
  match fault with
  | some e => .error e
  | none =>
    if s.posts.any (fun p => p.id == n) then
      .ok { s with posts := s.posts.filter (fun p => p.id != n) }
    else .error notFoundError

/-- An error value reaching a handler's `catch`: either the `TypeError`
thrown by `content.trim()` on a non-string, or a Prisma error. -/
inductive JsError where
  | typeError
  | prismaErr (e : PrismaError)

/-- A serialized JSON response body. -/
inductive RespBody where
  | posts (l : List Post)
  | post (p : Post)
  | errorMsg (s : String)
  | message (s : String)

/-- The outcome of one request: HTTP status, JSON response body, the store
after the handler ran, and the `console.error` log entries emitted. -/
structure HResult where
  status : Nat
  body : RespBody
  store : Store
  log : List (String × JsError)

/-- The request body of the create operation after destructuring
`const { content, imageUrl, userId } = req.body` (an absent field is
`undefined`). -/
structure ReqBody where
  content : JSValue
  imageUrl : JSValue
  userId : JSValue

/-- `GET /api/posts` (server.js lines 45-71). -/
def listHandler (s : Store) (fault : Option PrismaError) : HResult :=
  match prismaFindMany s fault with
  | .ok ps => ⟨200, .posts ps, s, []⟩
  | .error e => ⟨500, .errorMsg "投稿の取得に失敗しました", s, [("Error fetching posts:", .prismaErr e)]⟩

/-- `POST /api/posts` (server.js lines 74-105): `!content` short-circuits to
400 without calling `trim`; a truthy non-string `content` makes
`content.trim()` throw, landing in the generic `catch`. -/
def createHandler (b : ReqBody) (s : Store) (fault : Option PrismaError) : HResult :=
  if !truthy b.content then
    ⟨400, .errorMsg "投稿の中身が空なので入力してください", s, []⟩
  else
    match tryTrim b.content with
    | none => ⟨500, .errorMsg "投稿の作成に失敗しました", s, [("Error creating post:", .typeError)]⟩
    | some t =>
      if t = "" then
        ⟨400, .errorMsg "投稿の中身が空なので入力してください", s, []⟩
      else
        match prismaCreate s t (jsOr b.imageUrl) (jsOr b.userId) fault with
        | .ok (p, s') => ⟨201, .post p, s', []⟩
        | .error e => ⟨500, .errorMsg "投稿の作成に失敗しました", s, [("Error creating post:", .prismaErr e)]⟩

/-- The numeric path of `DELETE /api/posts/:id` (server.js lines 125-144),
after `parseInt` succeeded: the `catch` logs the error, maps `P2025` to 404
and everything else to 500. -/
def deleteById (n : Int) (s : Store) (fault : Option PrismaError) : HResult :=
  match prismaDelete s n fault with
  | .ok s' => ⟨200, .message "投稿を削除しました", s', []⟩
  | .error e =>
    if e.code = some "P2025" then
      ⟨404, .errorMsg "投稿が見つかりません", s, [("Error deleting post:", .prismaErr e)]⟩
    else
      ⟨500, .errorMsg "投稿の削除に失敗しました", s, [("Error deleting post:", .prismaErr e)]⟩

/-- `DELETE /api/posts/:id` (server.js lines 113-145): `parseInt` then the
`isNaN` guard, then the delete path. -/
def deleteHandler (idStr : String) (s : Store) (fault : Option PrismaError) : HResult :=
  match parseInt idStr with
  | none => ⟨400, .errorMsg "無効なIDです", s, []⟩
  | some n => deleteById n s fault

/-- Store states reachable through the API: the empty store (auto-increment
at 1), clock ticks between requests, and the three handlers with any inputs
and any injected persistence fault. -/
inductive Reachable : Store → Prop where
  | init (t : Nat) : Reachable ⟨[], 1, t⟩
  | tick {s : Store} (t : Nat) : Reachable s → Reachable ⟨s.posts, s.nextId, t⟩
  | listStep {s : Store} (fault : Option PrismaError) :
      Reachable s → Reachable (listHandler s fault).store
  | createStep {s : Store} (b : ReqBody) (fault : Option PrismaError) :
      Reachable s → Reachable (createHandler b s fault).store
  | deleteStep {s : Store} (idStr : String) (fault : Option PrismaError) :
      Reachable s → Reachable (deleteHandler idStr s fault).store

/-- Every stored row's `content` is non-empty and not whitespace-only. -/
def contentOk (s : Store) : Prop :=
  ∀ p ∈ s.posts, p.content ≠ "" ∧ ∃ c ∈ p.content.data, jsWhitespace c = false

/-- Concrete values used to instantiate the universally quantified theorems
below on closed inputs. -/
def emptyStore : Store :=
  ⟨[], 1, 0⟩

def samplePost : Post :=
  ⟨1, "hello", .null, .null, 3⟩

def oneStore : Store :=
  ⟨[samplePost], 2, 7⟩

def hexStore : Store :=
  ⟨[⟨0, "zero", .null, .null, 5⟩], 1, 9⟩

def sampleErr : PrismaError :=
  ⟨some "P1001", "database unreachable"⟩

/-- C1: a create request whose `content` trims to a non-empty string persists
a new Post with the trimmed content, nulls falsy `imageUrl` / `userId`, and
responds 201 with the created Post carrying the persistence-assigned `id` and
`createdAt`. -/
theorem create_valid_ok (c : String) (img uid : JSValue) (s : Store)
    (h : jsTrim c ≠ "") :
    createHandler ⟨.str c, img, uid⟩ s none =
      ⟨201, .post ⟨s.nextId, jsTrim c, jsOr img, jsOr uid, s.now⟩,
       ⟨(⟨s.nextId, jsTrim c, jsOr img, jsOr uid, s.now⟩ : Post) :: s.posts, s.nextId + 1, s.now⟩, []⟩ ∧
    (truthy img = false → jsOr img = .null) ∧
    (truthy uid = false → jsOr uid = .null) := by
  have hc : c ≠ "" := by
    intro hce
    rw [hce] at h
    exact h rfl
  refine ⟨?_, fun hi => by simp [jsOr, hi], fun hu => by simp [jsOr, hu]⟩
  simp [createHandler, truthy, tryTrim, prismaCreate, hc, h]

theorem create_valid_ok_w :
    createHandler ⟨.str " hello ", .str "", .number 0⟩ emptyStore none =
      ⟨201, .post ⟨emptyStore.nextId, jsTrim " hello ", jsOr (.str ""), jsOr (.number 0), emptyStore.now⟩,
       ⟨(⟨emptyStore.nextId, jsTrim " hello ", jsOr (.str ""), jsOr (.number 0), emptyStore.now⟩ : Post) :: emptyStore.posts,
        emptyStore.nextId + 1, emptyStore.now⟩, []⟩ ∧
    jsOr (.str "") = .null ∧ jsOr (.number 0) = .null := by
  have h := create_valid_ok " hello " (.str "") (.number 0) emptyStore (by decide)
  exact ⟨h.1, h.2.1 rfl, h.2.2 rfl⟩

/-- C2: a create request whose `content` is missing, or is a string that is
empty after trimming, is rejected with 400 and the store is unchanged; no
other field (and no persistence outcome) matters. -/
theorem create_rejects_empty (v img uid : JSValue) (s : Store) (fault : Option PrismaError)
    (h : v = .undefined ∨ ∃ c, v = .str c ∧ jsTrim c = "") :
    createHandler ⟨v, img, uid⟩ s fault =
      ⟨400, .errorMsg "投稿の中身が空なので入力してください", s, []⟩ := by
  rcases h with h | ⟨c, rfl, hc⟩
  · subst h
    rfl
  · by_cases hce : c = ""
    · subst hce
      rfl
    · simp [createHandler, truthy, tryTrim, hce, hc]

theorem create_rejects_empty_w :
    createHandler ⟨.str "   ", .number 5, .arr []⟩ oneStore (some sampleErr) =
      ⟨400, .errorMsg "投稿の中身が空なので入力してください", oneStore, []⟩ :=
  create_rejects_empty _ _ _ _ _ (Or.inr ⟨"   ", rfl, by decide⟩)

/-- C5: a delete request whose path identifier does not parse to a number is
rejected with 400, for every store and every persistence outcome (no
persistence call is reachable in that branch), leaving the store unchanged. -/
theorem delete_nonnumeric_400 (idStr : String) (s : Store) (fault : Option PrismaError)
    (h : parseInt idStr = none) :
    deleteHandler idStr s fault = ⟨400, .errorMsg "無効なIDです", s, []⟩ := by
  simp [deleteHandler, h]

theorem delete_nonnumeric_400_w :
    deleteHandler "abc" oneStore (some sampleErr) = ⟨400, .errorMsg "無効なIDです", oneStore, []⟩ :=
  delete_nonnumeric_400 "abc" oneStore (some sampleErr) (by decide)

/-- C9: a create request whose `content` is present and truthy but not a
string makes `content.trim()` throw; the generic catch answers 500 (not 400,
not 201), no record is created, and the TypeError is only logged. -/
theorem create_nonstring_500 (v img uid : JSValue) (s : Store) (fault : Option PrismaError)
    (ht : truthy v = true) (hns : ∀ c, v ≠ .str c) :
    createHandler ⟨v, img, uid⟩ s fault =
      ⟨500, .errorMsg "投稿の作成に失敗しました", s, [("Error creating post:", .typeError)]⟩ := by
  have htr : tryTrim v = none := by
    cases v <;> try rfl
    exact absurd rfl (hns _)
  simp [createHandler, ht, htr]

theorem create_nonstring_500_w :
    createHandler ⟨.number 42, .undefined, .undefined⟩ oneStore none =
      ⟨500, .errorMsg "投稿の作成に失敗しました", oneStore, [("Error creating post:", .typeError)]⟩ :=
  create_nonstring_500 _ _ _ _ _ (by decide) (fun c h => JSValue.noConfusion h)

/-- C3: the list operation answers 200 with all stored posts as a sequence
sorted by `createdAt` descending (a permutation of the store's rows), the
empty sequence when the store is empty, and leaves the store unchanged. -/
theorem list_sorted_ok (s : Store) :
    listHandler s none = ⟨200, .posts (sortDesc s.posts), s, []⟩ ∧
    (sortDesc s.posts).Perm s.posts ∧
    List.Sorted postGe (sortDesc s.posts) ∧
    (s.posts = [] → sortDesc s.posts = []) := by
  refine ⟨rfl, List.perm_insertionSort postGe s.posts,
    List.sorted_insertionSort postGe s.posts, ?_⟩
  intro h
  rw [h]
  rfl

theorem list_sorted_ok_w :
    listHandler emptyStore none = ⟨200, .posts (sortDesc emptyStore.posts), emptyStore, []⟩ ∧
    sortDesc emptyStore.posts = [] :=
  ⟨(list_sorted_ok emptyStore).1, (list_sorted_ok emptyStore).2.2.2 rfl⟩

/-- C4: deleting a numeric id that matches no stored row makes the
persistence layer signal the `P2025` record-not-found code, which the handler
translates to 404 with a fixed message and an unchanged store; a fault
carries that translation exactly when its code is `P2025`. -/
theorem delete_notfound_404 (idStr : String) (n : Int) (s : Store)
    (hp : parseInt idStr = some n) (hn : ∀ p ∈ s.posts, p.id ≠ n) :
    prismaDelete s n none = .error notFoundError ∧
    notFoundError.code = some "P2025" ∧
    deleteHandler idStr s none =
      ⟨404, .errorMsg "投稿が見つかりません", s, [("Error deleting post:", .prismaErr notFoundError)]⟩ ∧
    (∀ e : PrismaError, (deleteHandler idStr s (some e)).status = 404 ↔ e.code = some "P2025") := by
  have hany : s.posts.any (fun p => p.id == n) = false := by
    simp only [List.any_eq_false]
    intro p hp'
    simp [hn p hp']
  refine ⟨by simp [prismaDelete, hany], rfl, ?_, ?_⟩
  · simp [deleteHandler, hp, deleteById, prismaDelete, hany, notFoundError]
  · intro e
    by_cases hc : e.code = some "P2025" <;>
      simp [deleteHandler, hp, deleteById, prismaDelete, hc]

theorem delete_notfound_404_w :
    prismaDelete emptyStore 7 none = .error notFoundError ∧
    notFoundError.code = some "P2025" ∧
    deleteHandler "7" emptyStore none =
      ⟨404, .errorMsg "投稿が見つかりません", emptyStore, [("Error deleting post:", .prismaErr notFoundError)]⟩ := by
  have h := delete_notfound_404 "7" 7 emptyStore (by decide) (by intro p hp; simp [emptyStore] at hp)
  exact ⟨h.1, h.2.1, h.2.2.1⟩

/-- C6: deleting the id of an existing post removes exactly the rows with
that id (every other row survives), answers 200 with the fixed confirmation
message, and a subsequent listing of the new store excludes the deleted id. -/
theorem delete_existing_200 (idStr : String) (n : Int) (s : Store)
    (hp : parseInt idStr = some n) (hmem : ∃ p ∈ s.posts, p.id = n) :
    deleteHandler idStr s none =
      ⟨200, .message "投稿を削除しました", ⟨s.posts.filter (fun p => p.id != n), s.nextId, s.now⟩, []⟩ ∧
    (∀ p ∈ (deleteHandler idStr s none).store.posts, p.id ≠ n) ∧
    (∀ p ∈ s.posts, p.id ≠ n → p ∈ (deleteHandler idStr s none).store.posts) ∧
    (∀ p ∈ sortDesc (deleteHandler idStr s none).store.posts, p.id ≠ n) := by
  have hany : s.posts.any (fun p => p.id == n) = true := by
    rcases hmem with ⟨p, hp', he⟩
    exact List.any_eq_true.mpr ⟨p, hp', by simp [he]⟩
  have hres : deleteHandler idStr s none =
      ⟨200, .message "投稿を削除しました", ⟨s.posts.filter (fun p => p.id != n), s.nextId, s.now⟩, []⟩ := by
    simp [deleteHandler, hp, deleteById, prismaDelete, hany]
  have hnotin : ∀ p ∈ (deleteHandler idStr s none).store.posts, p.id ≠ n := by
    rw [hres]
    intro p hp'
    simpa using (List.mem_filter.mp hp').2
  refine ⟨hres, hnotin, ?_, ?_⟩
  · rw [hres]
    intro p hp' hne
    exact List.mem_filter.mpr ⟨hp', by simpa using hne⟩
  · intro p hp'
    exact hnotin p (by simpa [sortDesc] using hp')

theorem delete_existing_200_w :
    deleteHandler "1" oneStore none =
      ⟨200, .message "投稿を削除しました", ⟨oneStore.posts.filter (fun p => p.id != 1), oneStore.nextId, oneStore.now⟩, []⟩ :=
  (delete_existing_200 "1" 1 oneStore (by decide) ⟨samplePost, by simp [oneStore], rfl⟩).1

/-- C7: a persistence fault other than the delete `P2025` case is caught in
each handler and answered as 500 with a fixed message — the fault's detail
appears only in the log, never in the body — and the store is unchanged. -/
theorem errors_translate_500 (e : PrismaError) (s : Store) (img uid : JSValue)
    (c idStr : String) (n : Int)
    (hc : jsTrim c ≠ "") (hp : parseInt idStr = some n) (hne : e.code ≠ some "P2025") :
    listHandler s (some e) =
      ⟨500, .errorMsg "投稿の取得に失敗しました", s, [("Error fetching posts:", .prismaErr e)]⟩ ∧
    createHandler ⟨.str c, img, uid⟩ s (some e) =
      ⟨500, .errorMsg "投稿の作成に失敗しました", s, [("Error creating post:", .prismaErr e)]⟩ ∧
    deleteHandler idStr s (some e) =
      ⟨500, .errorMsg "投稿の削除に失敗しました", s, [("Error deleting post:", .prismaErr e)]⟩ := by
  have hce : c ≠ "" := by
    intro h
    rw [h] at hc
    exact hc rfl
  refine ⟨rfl, ?_, ?_⟩
  · simp [createHandler, truthy, tryTrim, hce, hc, prismaCreate]
  · simp [deleteHandler, hp, deleteById, prismaDelete, hne]

theorem errors_translate_500_w :
    listHandler oneStore (some sampleErr) =
      ⟨500, .errorMsg "投稿の取得に失敗しました", oneStore, [("Error fetching posts:", .prismaErr sampleErr)]⟩ ∧
    createHandler ⟨.str "hi", .undefined, .undefined⟩ oneStore (some sampleErr) =
      ⟨500, .errorMsg "投稿の作成に失敗しました", oneStore, [("Error creating post:", .prismaErr sampleErr)]⟩ ∧
    deleteHandler "1" oneStore (some sampleErr) =
      ⟨500, .errorMsg "投稿の削除に失敗しました", oneStore, [("Error deleting post:", .prismaErr sampleErr)]⟩ :=
  errors_translate_500 sampleErr oneStore .undefined .undefined "hi" "1" 1
    (by decide) (by decide) (by decide)

theorem dropWhile_exists_not (p : Char → Bool) :
    ∀ l : List Char, l.dropWhile p ≠ [] → ∃ c ∈ l.dropWhile p, p c = false := by
  intro l
  induction l with
  | nil => intro h; exact absurd rfl h
  | cons c t ih =>
    intro h
    by_cases hc : p c
    · rw [List.dropWhile_cons_of_pos hc] at h ⊢
      exact ih h
    · rw [List.dropWhile_cons_of_neg hc]
      exact ⟨c, List.mem_cons_self c t, by simpa using hc⟩

theorem trim_has_black (l : List Char) (h : trimChars l ≠ []) :
    ∃ c ∈ trimChars l, jsWhitespace c = false := by
  have hm : (l.dropWhile jsWhitespace).reverse.dropWhile jsWhitespace ≠ [] := by
    intro h0
    apply h
    unfold trimChars
    rw [h0]
    rfl
  obtain ⟨c, hc, hcw⟩ := dropWhile_exists_not jsWhitespace _ hm
  exact ⟨c, List.mem_reverse.mpr hc, hcw⟩

theorem listHandler_store (s : Store) (fault : Option PrismaError) :
    (listHandler s fault).store = s := by
  cases fault <;> rfl

theorem createHandler_store_cases (b : ReqBody) (s : Store) (fault : Option PrismaError) :
    (createHandler b s fault).store = s ∨
    ∃ c, b.content = .str c ∧ jsTrim c ≠ "" ∧
      (createHandler b s fault).store =
        ⟨(⟨s.nextId, jsTrim c, jsOr b.imageUrl, jsOr b.userId, s.now⟩ : Post) :: s.posts, s.nextId + 1, s.now⟩ := by
  obtain ⟨v, img, uid⟩ := b
  have hns : ∀ w, tryTrim w = none → (createHandler ⟨w, img, uid⟩ s fault).store = s := by
    intro w htr
    by_cases ht : truthy w
    · simp [createHandler, ht, htr]
    · simp [createHandler, ht]
  cases v with
  | str c =>
    by_cases hce : c = ""
    · subst hce
      exact Or.inl (by simp [createHandler, truthy])
    · by_cases htr : jsTrim c = ""
      · exact Or.inl (by simp [createHandler, truthy, tryTrim, hce, htr])
      · cases fault with
        | some e =>
          exact Or.inl (by simp [createHandler, truthy, tryTrim, hce, htr, prismaCreate])
        | none =>
          exact Or.inr ⟨c, rfl, htr,
            by simp [createHandler, truthy, tryTrim, hce, htr, prismaCreate]⟩
  | undefined => exact Or.inl (hns _ rfl)
  | null => exact Or.inl (hns _ rfl)
  | boolean bb => exact Or.inl (hns _ rfl)
  | number n => exact Or.inl (hns _ rfl)
  | arr l => exact Or.inl (hns _ rfl)
  | obj f => exact Or.inl (hns _ rfl)

theorem deleteHandler_store_cases (idStr : String) (s : Store) (fault : Option PrismaError) :
    (deleteHandler idStr s fault).store = s ∨
    ∃ n : Int, (deleteHandler idStr s fault).store =
      ⟨s.posts.filter (fun p => p.id != n), s.nextId, s.now⟩ := by
  unfold deleteHandler
  cases hp : parseInt idStr with
  | none => exact Or.inl rfl
  | some n =>
    unfold deleteById
    cases fault with
    | some e =>
      by_cases hc : e.code = some "P2025" <;> simp [prismaDelete, hc]
    | none =>
      by_cases hany : s.posts.any (fun p => p.id == n)
      · exact Or.inr ⟨n, by simp [prismaDelete, hany]⟩
      · simp [prismaDelete, hany, notFoundError]

theorem contentOk_preserved_create (b : ReqBody) (s : Store) (fault : Option PrismaError)
    (h : contentOk s) : contentOk (createHandler b s fault).store := by
  rcases createHandler_store_cases b s fault with he | ⟨c, _, htr, he⟩
  · rw [he]
    exact h
  · rw [he]
    intro p hp
    rcases List.mem_cons.mp hp with rfl | hmem
    · refine ⟨htr, ?_⟩
      have hne : trimChars c.data ≠ [] := by
        intro h0
        apply htr
        show jsTrim c = ""
        unfold jsTrim
        rw [h0]
      exact trim_has_black c.data hne
    · exact h p hmem

theorem contentOk_preserved_delete (idStr : String) (s : Store) (fault : Option PrismaError)
    (h : contentOk s) : contentOk (deleteHandler idStr s fault).store := by
  rcases deleteHandler_store_cases idStr s fault with he | ⟨n, he⟩
  · rw [he]
    exact h
  · rw [he]
    intro p hp
    exact h p (List.mem_filter.mp hp).1

/-- C8: in every store state reachable through the API, every stored Post's
`content` is a non-empty, not whitespace-only string, and each of the three
operations preserves that invariant for any inputs and persistence outcome. -/
theorem stored_content_nonblank (s : Store) (h : Reachable s) :
    contentOk s ∧
    (∀ fault, contentOk (listHandler s fault).store) ∧
    (∀ b fault, contentOk (createHandler b s fault).store) ∧
    (∀ idStr fault, contentOk (deleteHandler idStr s fault).store) := by
  have hmain : contentOk s := by
    induction h with
    | init t =>
      intro p hp
      exact absurd hp (List.not_mem_nil p)
    | tick t _ ih =>
      intro p hp
      exact ih p hp
    | listStep fault _ ih =>
      rw [listHandler_store]
      exact ih
    | createStep b fault _ ih =>
      exact contentOk_preserved_create b _ fault ih
    | deleteStep idStr fault _ ih =>
      exact contentOk_preserved_delete idStr _ fault ih
  exact ⟨hmain, fun fault => by rw [listHandler_store]; exact hmain,
    fun b fault => contentOk_preserved_create b s fault hmain,
    fun idStr fault => contentOk_preserved_delete idStr s fault hmain⟩

theorem stored_content_nonblank_w :
    contentOk (createHandler ⟨.str " hello ", .undefined, .undefined⟩ ⟨[], 1, 0⟩ none).store :=
  (stored_content_nonblank _ (Reachable.createStep _ none (Reachable.init 0))).1

theorem digit_not_ws {c : Char} (h : isDecDigitB c = true) : jsWhitespace c = false := by
  simp only [isDecDigitB, Bool.and_eq_true, decide_eq_true_eq] at h
  simp only [jsWhitespace, Bool.or_eq_false_iff, Bool.and_eq_false_iff,
    decide_eq_false_iff_not, not_le]
  omega

theorem takeWhile_all_append (p : Char → Bool) (c : Char) (rest : List Char)
    (hc : p c = false) :
    ∀ ds : List Char, (∀ x ∈ ds, p x = true) → (ds ++ c :: rest).takeWhile p = ds := by
  intro ds
  induction ds with
  | nil =>
    intro _
    simp [List.takeWhile_cons, hc]
  | cons d ds' ih =>
    intro hall
    have hd : p d = true := hall d (List.mem_cons_self d ds')
    simp only [List.cons_append, List.takeWhile_cons, hd, if_true]
    rw [ih (fun x hx => hall x (List.mem_cons_of_mem d hx))]

theorem deleteById_status (n : Int) (s : Store) (fault : Option PrismaError) :
    (deleteById n s fault).status = 200 ∨ (deleteById n s fault).status = 404 ∨
    (deleteById n s fault).status = 500 := by
  unfold deleteById
  cases fault with
  | some e =>
    by_cases hc : e.code = some "P2025" <;> simp [prismaDelete, hc]
  | none =>
    by_cases hany : s.posts.any (fun p => p.id == n) <;>
      simp [prismaDelete, hany, notFoundError]

/-- C10 (corrected): the claim as stated is false for identifiers carrying
the `0x` / `0X` hexadecimal prefix.  Witness input `"0xa"`: it begins with
the digit `'0'` followed by the non-digit characters `"xa"`, so the claim
predicts a delete attempt against the leading integer 0 — but `parseInt`
reads it in radix 16 as 10, so the code attempts id 10: against a store
whose only post has id 0, the request answers 404 and deletes nothing,
whereas a delete against id 0 would have answered 200 and removed the row. -/
theorem delete_leading_digits_cex :
    "0xa".data = '0' :: 'x' :: 'a' :: [] ∧
    isDecDigitB '0' = true ∧ isDecDigitB 'x' = false ∧ isDecDigitB 'a' = false ∧
    decValue ['0'] = 0 ∧
    parseInt "0xa" = some 10 ∧
    deleteHandler "0xa" hexStore none =
      ⟨404, .errorMsg "投稿が見つかりません", hexStore, [("Error deleting post:", .prismaErr notFoundError)]⟩ ∧
    deleteById 0 hexStore none = ⟨200, .message "投稿を削除しました", ⟨[], 1, 9⟩, []⟩ := by
  refine ⟨rfl, rfl, rfl, rfl, rfl, by decide, rfl, rfl⟩

/-- C10 (amended): for an identifier consisting of decimal digits followed by
a non-digit character — excluding the `0x` / `0X` hexadecimal prefix, which
`parseInt` reads in radix 16 — the identifier parses to its leading integer,
the 400 branch is not taken, and the delete is attempted against that id. -/
theorem delete_leading_digits (d : Char) (ds rest : List Char) (c : Char)
    (s : Store) (fault : Option PrismaError)
    (hall : ∀ x ∈ d :: ds, isDecDigitB x = true)
    (hc : isDecDigitB c = false)
    (hhex : ¬(d = '0' ∧ ds = [] ∧ (c = 'x' ∨ c = 'X'))) :
    parseInt ⟨d :: (ds ++ c :: rest)⟩ = some ((decValue (d :: ds) : Nat) : Int) ∧
    deleteHandler ⟨d :: (ds ++ c :: rest)⟩ s fault =
      deleteById ((decValue (d :: ds) : Nat) : Int) s fault ∧
    (deleteHandler ⟨d :: (ds ++ c :: rest)⟩ s fault).status ≠ 400 := by
  have hd0 : isDecDigitB d = true := hall d (List.mem_cons_self d ds)
  have hdm : d ≠ '-' := by
    intro h
    rw [h] at hd0
    exact absurd hd0 (by decide)
  have hdp : d ≠ '+' := by
    intro h
    rw [h] at hd0
    exact absurd hd0 (by decide)
  have htake : (d :: (ds ++ c :: rest)).takeWhile isDecDigitB = d :: ds := by
    have h := takeWhile_all_append isDecDigitB c rest hc (d :: ds) hall
    simpa using h
  have hcond : ¬((d :: (ds ++ c :: rest)).head? = some '0' ∧
      ((d :: (ds ++ c :: rest)).tail.head? = some 'x' ∨
       (d :: (ds ++ c :: rest)).tail.head? = some 'X')) := by
    rintro ⟨h0, hx⟩
    have hd' : d = '0' := by simpa using h0
    cases ds with
    | nil =>
      rcases hx with hx | hx
      · exact hhex ⟨hd', rfl, Or.inl (by simpa using hx)⟩
      · exact hhex ⟨hd', rfl, Or.inr (by simpa using hx)⟩
    | cons d2 ds2 =>
      have hd2 : isDecDigitB d2 = true := hall d2 (by simp)
      rcases hx with hx | hx
      · have he : d2 = 'x' := by simpa using hx
        rw [he] at hd2
        exact absurd hd2 (by decide)
      · have he : d2 = 'X' := by simpa using hx
        rw [he] at hd2
        exact absurd hd2 (by decide)
  have hpas : parseIntAfterSign (d :: (ds ++ c :: rest)) = some (decValue (d :: ds)) := by
    unfold parseIntAfterSign
    rw [if_neg hcond, htake]
    simp
  have hparse : parseInt ⟨d :: (ds ++ c :: rest)⟩ = some ((decValue (d :: ds) : Nat) : Int) := by
    show parseIntSigned ((d :: (ds ++ c :: rest)).dropWhile jsWhitespace) =
      some ((decValue (d :: ds) : Nat) : Int)
    rw [List.dropWhile_cons_of_neg (by simp [digit_not_ws hd0])]
    unfold parseIntSigned
    rw [if_neg (by simp [hdm]), if_neg (by simp [hdp]), hpas]
    rfl
  have hdel : deleteHandler ⟨d :: (ds ++ c :: rest)⟩ s fault =
      deleteById ((decValue (d :: ds) : Nat) : Int) s fault := by
    unfold deleteHandler
    rw [hparse]
  refine ⟨hparse, hdel, ?_⟩
  rw [hdel]
  rcases deleteById_status ((decValue (d :: ds) : Nat) : Int) s fault with h | h | h <;>
    rw [h] <;> decide

theorem delete_leading_digits_w :
    parseInt ⟨'1' :: (['2', '3'] ++ 'a' :: ['b', 'c'])⟩ =
      some ((decValue ['1', '2', '3'] : Nat) : Int) ∧
    deleteHandler ⟨'1' :: (['2', '3'] ++ 'a' :: ['b', 'c'])⟩ oneStore none =
      deleteById ((decValue ['1', '2', '3'] : Nat) : Int) oneStore none ∧
    (deleteHandler ⟨'1' :: (['2', '3'] ++ 'a' :: ['b', 'c'])⟩ oneStore none).status ≠ 400 :=
  delete_leading_digits '1' ['2', '3'] ['b', 'c'] 'a' oneStore none
    (by decide) (by decide) (by decide)
